import Mathlib

/-
Verification development for the sentry-monitoring export job
(src/main.py).  The Python program is shallowly embedded: JSON values
become the inductive type `Json`, the dictionary/attribute operations
the program performs become small total functions (fallible ones return
`Except Unit _`), and the paginated fetch loop becomes a step function
on an explicit fetch state driven by a `world` oracle mapping request
URLs to responses.
-/

namespace SentryMon

/-- Json models the values produced by json.loads: objects are ordered
association lists, as CPython dictionaries preserve insertion order. -/
inductive Json where
  | null : Json
  | bool (b : Bool) : Json
  | num (n : Int) : Json
  | str (s : String) : Json
  | arr (elems : List Json) : Json
  | obj (fields : List (String × Json)) : Json

mutual

def decEqJson : (a b : Json) → Decidable (a = b)
  | Json.null, Json.null => isTrue rfl
  | Json.null, Json.bool _ => isFalse fun h => Json.noConfusion h
  | Json.null, Json.num _ => isFalse fun h => Json.noConfusion h
  | Json.null, Json.str _ => isFalse fun h => Json.noConfusion h
  | Json.null, Json.arr _ => isFalse fun h => Json.noConfusion h
  | Json.null, Json.obj _ => isFalse fun h => Json.noConfusion h
  | Json.bool _, Json.null => isFalse fun h => Json.noConfusion h
  | Json.bool a, Json.bool b =>
    if h : a = b then isTrue (by rw [h]) else isFalse fun hc => by cases hc; exact h rfl
  | Json.bool _, Json.num _ => isFalse fun h => Json.noConfusion h
  | Json.bool _, Json.str _ => isFalse fun h => Json.noConfusion h
  | Json.bool _, Json.arr _ => isFalse fun h => Json.noConfusion h
  | Json.bool _, Json.obj _ => isFalse fun h => Json.noConfusion h
  | Json.num _, Json.null => isFalse fun h => Json.noConfusion h
  | Json.num _, Json.bool _ => isFalse fun h => Json.noConfusion h
  | Json.num a, Json.num b =>
    if h : a = b then isTrue (by rw [h]) else isFalse fun hc => by cases hc; exact h rfl
  | Json.num _, Json.str _ => isFalse fun h => Json.noConfusion h
  | Json.num _, Json.arr _ => isFalse fun h => Json.noConfusion h
  | Json.num _, Json.obj _ => isFalse fun h => Json.noConfusion h
  | Json.str _, Json.null => isFalse fun h => Json.noConfusion h
  | Json.str _, Json.bool _ => isFalse fun h => Json.noConfusion h
  | Json.str _, Json.num _ => isFalse fun h => Json.noConfusion h
  | Json.str a, Json.str b =>
    if h : a = b then isTrue (by rw [h]) else isFalse fun hc => by cases hc; exact h rfl
  | Json.str _, Json.arr _ => isFalse fun h => Json.noConfusion h
  | Json.str _, Json.obj _ => isFalse fun h => Json.noConfusion h
  | Json.arr _, Json.null => isFalse fun h => Json.noConfusion h
  | Json.arr _, Json.bool _ => isFalse fun h => Json.noConfusion h
  | Json.arr _, Json.num _ => isFalse fun h => Json.noConfusion h
  | Json.arr _, Json.str _ => isFalse fun h => Json.noConfusion h
  | Json.arr a, Json.arr b =>
    match decEqJsonList a b with
    | isTrue h => isTrue (by rw [h])
    | isFalse h => isFalse fun hc => by cases hc; exact h rfl
  | Json.arr _, Json.obj _ => isFalse fun h => Json.noConfusion h
  | Json.obj _, Json.null => isFalse fun h => Json.noConfusion h
  | Json.obj _, Json.bool _ => isFalse fun h => Json.noConfusion h
  | Json.obj _, Json.num _ => isFalse fun h => Json.noConfusion h
  | Json.obj _, Json.str _ => isFalse fun h => Json.noConfusion h
  | Json.obj _, Json.arr _ => isFalse fun h => Json.noConfusion h
  | Json.obj a, Json.obj b =>
    match decEqJsonFields a b with
    | isTrue h => isTrue (by rw [h])
    | isFalse h => isFalse fun hc => by cases hc; exact h rfl

def decEqJsonList : (a b : List Json) → Decidable (a = b)
  | [], [] => isTrue rfl
  | [], _ :: _ => isFalse fun h => List.noConfusion h
  | _ :: _, [] => isFalse fun h => List.noConfusion h
  | a :: as, b :: bs =>
    match decEqJson a b with
    | isFalse h => isFalse fun hc => by cases hc; exact h rfl
    | isTrue h1 =>
      match decEqJsonList as bs with
      | isTrue h2 => isTrue (by rw [h1, h2])
      | isFalse h2 => isFalse fun hc => by cases hc; exact h2 rfl

def decEqJsonFields : (a b : List (String × Json)) → Decidable (a = b)
  | [], [] => isTrue rfl
  | [], _ :: _ => isFalse fun h => List.noConfusion h
  | _ :: _, [] => isFalse fun h => List.noConfusion h
  | (k1, v1) :: as, (k2, v2) :: bs =>
    if hk : k1 = k2 then
      match decEqJson v1 v2 with
      | isFalse h => isFalse fun hc => by cases hc; exact h rfl
      | isTrue h1 =>
        match decEqJsonFields as bs with
        | isTrue h2 => isTrue (by rw [hk, h1, h2])
        | isFalse h2 => isFalse fun hc => by cases hc; exact h2 rfl
    else isFalse fun hc => by cases hc; exact hk rfl

end

instance : DecidableEq Json := decEqJson

/-- The single-quote character that clean_quoted_strings strips. -/
def sq : Char := '\''

/-- Embedding of the condition on line 37 of main.py:
len(data) >= 2 and data.startswith(quote) and data.endswith(quote),
over the character list of the string. -/
def startsEndsQuote (cs : List Char) : Bool :=
  decide (2 ≤ cs.length) && (cs.head? = some sq) && (cs.getLast? = some sq)

/-- Embedding of the Python slice data[1:-1]: drop the first and the
last character. -/
def sliceInner (cs : List Char) : List Char :=
  (cs.drop 1).dropLast

/-- String case of clean_quoted_strings (main.py lines 35-40). -/
def stripQuotes (s : String) : String :=
  if startsEndsQuote s.toList then String.mk (sliceInner s.toList) else s

mutual

/-- clean_quoted_strings (main.py lines 23-43): recursively remove one
layer of surrounding single quotes from every string inside a nested
structure of dictionaries, lists and scalars. -/
def clean_quoted_strings : Json → Json
  | Json.obj fields => Json.obj (cleanFields fields)
  | Json.arr elems => Json.arr (cleanElems elems)
  | Json.str s => Json.str (stripQuotes s)
  | Json.null => Json.null
  | Json.bool b => Json.bool b
  | Json.num n => Json.num n

/-- Per-entry map of clean_quoted_strings over dictionary values
(main.py line 31); keys are kept unchanged. -/
def cleanFields : List (String × Json) → List (String × Json)
  | [] => []
  | p :: rest => (p.1, clean_quoted_strings p.2) :: cleanFields rest

/-- Per-element map of clean_quoted_strings over list items
(main.py line 34). -/
def cleanElems : List Json → List Json
  | [] => []
  | v :: rest => clean_quoted_strings v :: cleanElems rest

end

theorem cleanFields_eq_map (fields : List (String × Json)) :
    cleanFields fields = fields.map (fun p => (p.1, clean_quoted_strings p.2)) := by
  induction fields with
  | nil => rfl
  | cons p rest ih => simp [cleanFields, ih]

theorem cleanElems_eq_map (elems : List Json) :
    cleanElems elems = elems.map clean_quoted_strings := by
  induction elems with
  | nil => rfl
  | cons v rest ih => simp [cleanElems, ih]

example : clean_quoted_strings (Json.str (String.mk [sq, 'a', sq])) = Json.str "a" := by decide

example : clean_quoted_strings (Json.str (String.mk [sq, 'a'])) = Json.str (String.mk [sq, 'a']) := by decide

example :
    clean_quoted_strings (Json.obj [("k", Json.arr [Json.str (String.mk [sq, 'v', sq]), Json.num 5, Json.null])])
      = Json.obj [("k", Json.arr [Json.str "v", Json.num 5, Json.null])] := by decide

/-! ## Python dictionary / object primitives

The fetch loop performs a handful of dynamically-typed operations on the
extracted collect info, which may be any Json value.  Operations that
raise in Python for receivers of the wrong type return `Except.error ()`.
-/

/-- Python truthiness of a JSON-decoded value. -/
def pyTruthy : Json → Bool
  | Json.null => false
  | Json.bool b => b
  | Json.num n => n ≠ 0
  | Json.str s => s ≠ ""
  | Json.arr elems => elems ≠ []
  | Json.obj fields => fields ≠ []

/-- Substring test on character lists, as the Python expression
sub in s for strings. -/
def listIsSubstr (pat : List Char) : List Char → Bool
  | [] => pat.isEmpty
  | c :: rest => pat.isPrefixOf (c :: rest) || listIsSubstr pat rest

/-- Substring test on strings. -/
def isSubstring (pat s : String) : Bool :=
  listIsSubstr pat.toList s.toList

/-- Python v.get(k) with default None: defined on dictionaries only,
an AttributeError for every other receiver. -/
def pyGetMethod (v : Json) (k : String) : Except Unit Json :=
  match v with
  | Json.obj fields => Except.ok ((fields.lookup k).getD Json.null)
  | _ => Except.error ()

/-- Python v[k] for a string key: a dictionary lookup raising KeyError
when absent, a TypeError for non-dictionary receivers. -/
def pySubscript (v : Json) (k : String) : Except Unit Json :=
  match v with
  | Json.obj fields =>
    match fields.lookup k with
    | some w => Except.ok w
    | none => Except.error ()
  | _ => Except.error ()

/-- Python k in v for a string k: key membership on dictionaries,
substring test on strings, element equality on lists, a TypeError on
scalar receivers. -/
def pyContains (v : Json) (k : String) : Except Unit Bool :=
  match v with
  | Json.obj fields => Except.ok (fields.any (fun p => p.1 = k))
  | Json.str s => Except.ok (isSubstring k s)
  | Json.arr elems =>
    Except.ok (elems.any (fun e => match e with | Json.str s => s = k | _ => false))
  | _ => Except.error ()

/-! ## Payload extractor (get_collect_info, main.py lines 46-58)

The entries of one event are modelled with the shape the extractor
walks: every optional field records whether the corresponding key is
present, and a thread's stacktrace distinguishes a missing key from an
explicit null (both yield no frames, through the default of .get and
the or-with-empty-dict respectively).
-/

/-- A stack frame: its optional vars dictionary maps local-variable
names to arbitrary JSON values. -/
structure Frame where
  vars : Option (List (String × Json))

/-- A stacktrace object with an optional frames list. -/
structure Stacktrace where
  frames : Option (List Frame)

/-- A thread: stacktrace is missing (none), explicitly null
(some none), or an object (some (some st)). -/
structure Thread where
  stacktrace : Option (Option Stacktrace)

/-- The data field of an entry, with an optional values list. -/
structure EntryData where
  values : Option (List Thread)

/-- One element of an event's entries list. -/
structure Entry where
  data : Option EntryData

/-- threads_list of one entry: entry.get(data, default empty dict)
followed by .get(values, default empty list) (main.py lines 48-49). -/
def threadsOf (e : Entry) : List Thread :=
  match e.data with
  | none => []
  | some td => td.values.getD []

/-- frames of one thread: thread.get(stacktrace, empty) or empty,
then .get(frames, default empty list) (main.py lines 51-52). -/
def framesOf (t : Thread) : List Frame :=
  match t.stacktrace with
  | none => []
  | some none => []
  | some (some st) => st.frames.getD []

/-- The body variable of one frame: frame.get(vars, empty dict), then
the membership test and lookup on key body (main.py lines 55-57). -/
def varsBody (f : Frame) : Option Json :=
  (f.vars.getD []).lookup "body"

/-- Innermost loop of get_collect_info over frames (main.py lines 54-57),
returning at the first frame whose vars contain body. -/
def scanFrames : List Frame → Option Json
  | [] => none
  | f :: fs =>
    match varsBody f with
    | some v => some v
    | none => scanFrames fs

/-- Middle loop of get_collect_info over threads (main.py lines 50-57). -/
def scanThreads : List Thread → Option Json
  | [] => none
  | t :: ts =>
    match scanFrames (framesOf t) with
    | some v => some v
    | none => scanThreads ts

/-- Outer loop of get_collect_info over entries (main.py lines 47-57). -/
def scanEntries : List Entry → Option Json
  | [] => none
  | e :: es =>
    match scanThreads (threadsOf e) with
    | some v => some v
    | none => scanEntries es

/-- get_collect_info (main.py lines 46-58): the first body value found,
normalized, or an empty dictionary when no frame matches. -/
def get_collect_info (entries : List Entry) : Json :=
  match scanEntries entries with
  | some v => clean_quoted_strings v
  | none => Json.obj []

/-- Modelled from the claim wording: the value of the first frame, in
entries then threads then frames order, whose vars contain body. -/
def spec_first_body (entries : List Entry) : Option Json :=
  ((((entries.map threadsOf).flatten.map framesOf).flatten).filterMap varsBody).head?

theorem scanFrames_eq (fs : List Frame) :
    scanFrames fs = (fs.filterMap varsBody).head? := by
  induction fs with
  | nil => rfl
  | cons f rest ih =>
    simp only [scanFrames, List.filterMap_cons]
    cases h : varsBody f with
    | none => simpa [h] using ih
    | some v => simp [h]

theorem head_append_opt {α : Type} (l1 l2 : List α) :
    (l1 ++ l2).head? = match l1.head? with | some a => some a | none => l2.head? := by
  cases l1 <;> simp

theorem scanThreads_eq (ts : List Thread) :
    scanThreads ts = (((ts.map framesOf).flatten).filterMap varsBody).head? := by
  induction ts with
  | nil => rfl
  | cons t rest ih =>
    simp only [scanThreads, List.map_cons, List.flatten_cons, List.filterMap_append,
      head_append_opt, scanFrames_eq]
    cases h : (List.filterMap varsBody (framesOf t)).head? with
    | none => simpa using ih
    | some v => simp

theorem scanEntries_eq (es : List Entry) :
    scanEntries es = spec_first_body es := by
  induction es with
  | nil => rfl
  | cons e rest ih =>
    simp only [scanEntries, spec_first_body, List.map_cons, List.flatten_append,
      List.flatten_cons, List.map_append, List.filterMap_append, head_append_opt,
      scanThreads_eq]
    cases h : (List.filterMap varsBody ((threadsOf e).map framesOf).flatten).head? with
    | none => simpa [spec_first_body] using ih
    | some v => simp

/-! ## Timestamp parsing (main.py lines 78-81)

datetime.strptime with the two fixed formats, following the digit
patterns CPython uses for each directive (%Y four digits; %m, %d, %H,
%M, %S one or two digits within their ranges; %f one to six digits,
zero-padded on the right to microseconds), plus the day-of-month and
minimum-year validation the datetime constructor performs.
-/

/-- Numeric value of a decimal digit character. -/
def dval (c : Char) : Nat := c.toNat - 48

/-- Four-digit year, as the CPython pattern for the %Y directive. -/
def parseYearL : List Char → Option (Nat × List Char)
  | a :: b :: c :: d :: rest =>
    if a.isDigit ∧ b.isDigit ∧ c.isDigit ∧ d.isDigit then
      some (1000 * dval a + 100 * dval b + 10 * dval c + dval d, rest)
    else none
  | _ => none

/-- Month, as the CPython pattern for %m: two digits 01-12, or one
digit 1-9. -/
def parseMonthL : List Char → Option (Nat × List Char)
  | c1 :: c2 :: rest =>
    if c1 = '1' ∧ '0' ≤ c2 ∧ c2 ≤ '2' then some (10 + dval c2, rest)
    else if c1 = '0' ∧ '1' ≤ c2 ∧ c2 ≤ '9' then some (dval c2, rest)
    else if '1' ≤ c1 ∧ c1 ≤ '9' then some (dval c1, c2 :: rest)
    else none
  | [c1] => if '1' ≤ c1 ∧ c1 ≤ '9' then some (dval c1, []) else none
  | [] => none

/-- Day, as the CPython pattern for %d: 30-31, 10-29, 01-09, one digit
1-9, or a space-padded single digit. -/
def parseDayL : List Char → Option (Nat × List Char)
  | c1 :: c2 :: rest =>
    if c1 = '3' ∧ ('0' = c2 ∨ c2 = '1') then some (30 + dval c2, rest)
    else if ('1' = c1 ∨ c1 = '2') ∧ c2.isDigit then some (10 * dval c1 + dval c2, rest)
    else if c1 = '0' ∧ '1' ≤ c2 ∧ c2 ≤ '9' then some (dval c2, rest)
    else if '1' ≤ c1 ∧ c1 ≤ '9' then some (dval c1, c2 :: rest)
    else if c1 = ' ' ∧ '1' ≤ c2 ∧ c2 ≤ '9' then some (dval c2, rest)
    else none
  | [c1] => if '1' ≤ c1 ∧ c1 ≤ '9' then some (dval c1, []) else none
  | [] => none

/-- Hour, as the CPython pattern for %H: 20-23, 00-19, or one digit. -/
def parseHourL : List Char → Option (Nat × List Char)
  | c1 :: c2 :: rest =>
    if c1 = '2' ∧ '0' ≤ c2 ∧ c2 ≤ '3' then some (20 + dval c2, rest)
    else if ('0' = c1 ∨ c1 = '1') ∧ c2.isDigit then some (10 * dval c1 + dval c2, rest)
    else if c1.isDigit then some (dval c1, c2 :: rest)
    else none
  | [c1] => if c1.isDigit then some (dval c1, []) else none
  | [] => none

/-- Minute or second, as the CPython pattern for %M and %S: 00-59 or
one digit. -/
def parseMinSecL : List Char → Option (Nat × List Char)
  | c1 :: c2 :: rest =>
    if '0' ≤ c1 ∧ c1 ≤ '5' ∧ c2.isDigit then some (10 * dval c1 + dval c2, rest)
    else if c1.isDigit then some (dval c1, c2 :: rest)
    else none
  | [c1] => if c1.isDigit then some (dval c1, []) else none
  | [] => none

/-- One expected literal character of the format string. -/
def expectCharL (c : Char) : List Char → Option (List Char)
  | x :: rest => if x = c then some rest else none
  | [] => none

/-- Fractional seconds, as the CPython pattern for %f: one to six
digits, zero-padded on the right to a microsecond count. -/
def parseMicroL (cs : List Char) : Option (Nat × List Char) :=
  let run := cs.takeWhile Char.isDigit
  if run.length = 0 ∨ 6 < run.length then none
  else some ((run.foldl (fun acc ch => 10 * acc + dval ch) 0) * 10 ^ (6 - run.length),
    cs.drop run.length)

/-- The fields of a Python datetime value (tzinfo set to UTC changes no
field, so it is not recorded). -/
structure PyDateTime where
  year : Nat
  month : Nat
  day : Nat
  hour : Nat
  minute : Nat
  second : Nat
  micro : Nat
deriving DecidableEq

/-- Gregorian leap-year rule, as datetime uses. -/
def isLeap (y : Nat) : Bool :=
  y % 4 = 0 ∧ (y % 100 ≠ 0 ∨ y % 400 = 0)

/-- Length of a month, as datetime uses to validate the day. -/
def daysInMonth (y m : Nat) : Nat :=
  if m = 2 then (if isLeap y then 29 else 28)
  else if m = 4 ∨ m = 6 ∨ m = 9 ∨ m = 11 then 30
  else 31

/-- The datetime constructor validation not already enforced by the
directive patterns: the year is at least MINYEAR = 1 and the day fits
the month. -/
def mkPyDateTime (y mo d h mi s mic : Nat) : Option PyDateTime :=
  if 1 ≤ y ∧ 1 ≤ d ∧ d ≤ daysInMonth y mo then some ⟨y, mo, d, h, mi, s, mic⟩ else none

/-- strptime with format %Y-%m-%dT%H:%M:%S.%fZ (main.py line 79). -/
def strptimeFmtMicro (s : String) : Option PyDateTime := do
  let (y, r1) ← parseYearL s.toList
  let r2 ← expectCharL '-' r1
  let (mo, r3) ← parseMonthL r2
  let r4 ← expectCharL '-' r3
  let (d, r5) ← parseDayL r4
  let r6 ← expectCharL 'T' r5
  let (h, r7) ← parseHourL r6
  let r8 ← expectCharL ':' r7
  let (mi, r9) ← parseMinSecL r8
  let r10 ← expectCharL ':' r9
  let (sec, r11) ← parseMinSecL r10
  let r12 ← expectCharL '.' r11
  let (mic, r13) ← parseMicroL r12
  let r14 ← expectCharL 'Z' r13
  if r14 = [] then mkPyDateTime y mo d h mi sec mic else none

/-- strptime with format %Y-%m-%dT%H:%M:%SZ (main.py line 81). -/
def strptimeFmtBasic (s : String) : Option PyDateTime := do
  let (y, r1) ← parseYearL s.toList
  let r2 ← expectCharL '-' r1
  let (mo, r3) ← parseMonthL r2
  let r4 ← expectCharL '-' r3
  let (d, r5) ← parseDayL r4
  let r6 ← expectCharL 'T' r5
  let (h, r7) ← parseHourL r6
  let r8 ← expectCharL ':' r7
  let (mi, r9) ← parseMinSecL r8
  let r10 ← expectCharL ':' r9
  let (sec, r11) ← parseMinSecL r10
  let r12 ← expectCharL 'Z' r11
  if r12 = [] then mkPyDateTime y mo d h mi sec 0 else none

/-- Zero-pad a number on the left to a given width. -/
def padZeros (w n : Nat) : String :=
  let s := toString n
  String.mk (List.replicate (w - s.length) '0' ++ s.toList)

/-- strftime with format %Y-%m-%d %H:%M:%S.%f (main.py line 79).  The
year is rendered zero-padded to four digits; for years below 1000 the
underlying C strftime is platform-dependent (glibc leaves them
unpadded), and the portable four-digit reading is modelled. -/
def strftimeOut (dt : PyDateTime) : String :=
  padZeros 4 dt.year ++ "-" ++ padZeros 2 dt.month ++ "-" ++ padZeros 2 dt.day ++ " "
    ++ padZeros 2 dt.hour ++ ":" ++ padZeros 2 dt.minute ++ ":" ++ padZeros 2 dt.second
    ++ "." ++ padZeros 6 dt.micro

/-- The created_at computation of main.py lines 78-81: the first format
is tried, the second is the ValueError fallback; none models the
unhandled ValueError when both formats fail. -/
def parse_created_at (s : String) : Option String :=
  match strptimeFmtMicro s with
  | some dt => some (strftimeOut dt)
  | none =>
    match strptimeFmtBasic s with
    | some dt => some (strftimeOut dt)
    | none => none

example : parse_created_at "2023-05-06T07:08:09.5Z" = some "2023-05-06 07:08:09.500000" := by decide

example : parse_created_at "2023-05-06T07:08:09Z" = some "2023-05-06 07:08:09.000000" := by decide

example : parse_created_at "2023-05-06 07:08:09" = none := by decide

/-! ## Link header pagination (main.py lines 101-108)

The loop over link_header.split(", ") applies
re.search(r'<(.*?)>; rel="next"', part) to every part; a match sets the
next URL to the captured group when results="true" occurs anywhere in
the whole header, and to None otherwise.
-/

/-- The literal regex tail following the lazy capture group. -/
def relNextPat : List Char := (">; rel=\"next\"").toList

/-- The lazy group (.*?) of the regex: the shortest run of
non-newline characters followed by the literal tail. -/
def lazyCapture : List Char → Option (List Char)
  | [] => none
  | c :: rest =>
    if relNextPat.isPrefixOf (c :: rest) then some []
    else if c = '\n' then none
    else
      match lazyCapture rest with
      | some cap => some (c :: cap)
      | none => none

/-- re.search of the pattern: the leftmost < from which the lazy group
and the literal tail match. -/
def searchRelNext : List Char → Option (List Char)
  | [] => none
  | c :: rest =>
    if c = '<' then
      match lazyCapture rest with
      | some cap => some cap
      | none => searchRelNext rest
    else searchRelNext rest

/-- The captured URL of one split part, when the part matches the
rel-next regex. -/
def linkCapture (part : String) : Option String :=
  (searchRelNext part.toList).map String.mk

/-- The gating marker tested against the whole header string. -/
def resultsMarker : String := "results=\"true\""

/-- Python split on the two-character separator of a comma and a space,
over character lists. -/
def splitCommaSpace : List Char → List (List Char)
  | [] => [[]]
  | ',' :: ' ' :: rest => [] :: splitCommaSpace rest
  | c :: rest =>
    match splitCommaSpace rest with
    | [] => [[c]]
    | g :: gs => (c :: g) :: gs

/-- link_header.split(", ") of main.py line 105. -/
def pySplitCommaSpace (s : String) : List String :=
  (splitCommaSpace s.toList).map String.mk

/-- Body of the loop of main.py lines 105-108: a matching part sets the
next URL to the capture, gated on the results marker occurring in the
whole header; a non-matching part leaves it unchanged. -/
def nextStep (h : String) (url : Option String) (part : String) : Option String :=
  match linkCapture part with
  | some u => if isSubstring resultsMarker h then some u else none
  | none => url

/-- Next-URL computation of main.py lines 101-108, from the optional
Link header of the response just processed. -/
def computeNext (linkHeader : Option String) : Option String :=
  match linkHeader with
  | none => none
  | some h =>
    if h = "" then none
    else (pySplitCommaSpace h).foldl (nextStep h) none

/-- Modelled from the claim wording: follow the rel-next entry of the
header (the last one when several match) only when the results marker
is present in the same header string; otherwise no next URL. -/
def claimNext (linkHeader : Option String) : Option String :=
  match linkHeader with
  | none => none
  | some h =>
    if isSubstring resultsMarker h then ((pySplitCommaSpace h).filterMap linkCapture).getLast?
    else none

theorem getLast?_cons_opt {α : Type} (a : α) (l : List α) :
    (a :: l).getLast? = match l.getLast? with | some w => some w | none => some a := by
  cases l with
  | nil => rfl
  | cons b t =>
    rw [List.getLast?_cons_cons]
    cases h : (b :: t).getLast? with
    | some w => rfl
    | none => exact absurd (List.getLast?_eq_none_iff.mp h) (List.cons_ne_nil b t)

theorem nextStep_some (h : String) (url : Option String) (part u : String)
    (hp : linkCapture part = some u) :
    nextStep h url part = if isSubstring resultsMarker h then some u else none := by
  simp [nextStep, hp]

theorem nextStep_none (h : String) (url : Option String) (part : String)
    (hp : linkCapture part = none) : nextStep h url part = url := by
  simp [nextStep, hp]

theorem foldl_marker_true (h : String) (hm : isSubstring resultsMarker h = true) :
    ∀ (parts : List String) (acc : Option String),
      parts.foldl (nextStep h) acc
      = match (parts.filterMap linkCapture).getLast? with
        | some u => some u
        | none => acc := by
  intro parts
  induction parts with
  | nil => intro acc; rfl
  | cons p ps ih =>
    intro acc
    rw [List.foldl_cons, List.filterMap_cons]
    cases hp : linkCapture p with
    | none => rw [nextStep_none h acc p hp]; exact ih acc
    | some u =>
      rw [nextStep_some h acc p u hp, hm, if_pos rfl, ih (some u), getLast?_cons_opt]
      cases hl : (ps.filterMap linkCapture).getLast? <;> simp

theorem foldl_marker_false (h : String) (hm : isSubstring resultsMarker h = false) :
    ∀ (parts : List String) (acc : Option String), acc = none →
      parts.foldl (nextStep h) acc = none := by
  intro parts
  induction parts with
  | nil => intro acc hacc; exact hacc
  | cons p ps ih =>
    intro acc hacc
    rw [List.foldl_cons]
    cases hp : linkCapture p with
    | none => rw [nextStep_none h acc p hp]; exact ih acc hacc
    | some u => rw [nextStep_some h acc p u hp, hm]; exact ih _ (by simp)

theorem computeNext_eq_claimNext (linkHeader : Option String) :
    computeNext linkHeader = claimNext linkHeader := by
  cases linkHeader with
  | none => rfl
  | some h =>
    by_cases he : h = ""
    · subst he
      have hm : isSubstring resultsMarker "" = false := by decide
      simp [computeNext, claimNext, hm]
    · cases hm : isSubstring resultsMarker h with
      | true =>
        simp only [computeNext, claimNext, if_neg he, hm, if_pos]
        rw [foldl_marker_true h hm]
        cases (List.filterMap linkCapture (pySplitCommaSpace h)).getLast? <;> simp
      | false =>
        simp only [computeNext, claimNext, if_neg he, hm]
        rw [foldl_marker_false h hm _ none rfl]
        simp

example : computeNext (some "<https://x.example/p2>; rel=\"next\"; results=\"true\"")
    = some "https://x.example/p2" := by decide

example : computeNext (some "<https://x.example/p2>; rel=\"next\"; results=\"false\"") = none := by
  decide

example : computeNext (some "<https://x.example/p1>; rel=\"previous\"; results=\"true\"") = none := by
  decide

example : computeNext none = none := by decide

/-! ## Event fetcher (get_all_events, main.py lines 61-118)

One event of the decoded JSON page, with the top-level fields the loop
reads.  A flat record is the dictionary appended to the events list; the
network is a world oracle mapping a request URL to either a raised
exception (any HTTPError, URLError or other exception during the fetch
or the JSON decoding) or a decoded page body plus the optional Link
response header.
-/

/-- A raw Sentry event with the required top-level fields. -/
structure Event where
  groupID : String
  eventID : String
  projectID : String
  type : String
  title : String
  message : String
  platform : String
  culprit : String
  dateCreated : String
  entries : List Entry

/-- A flat record: the Python dictionary built per event, as an ordered
association list. -/
abbrev Record : Type := List (String × Json)

/-- re.sub removing every character other than the ten digits
(main.py lines 96-97). -/
def digitsOnly (s : String) : String :=
  String.mk (s.toList.filter Char.isDigit)

/-- The hauler_cnpj / receiver_cnpj expression of main.py lines 96-97:
key in collect_info and collect_info[key].get(document) gates (by
truthiness) the digits-only projection of collect_info[key][document];
otherwise None. -/
def cnpjOf (ci : Json) (key : String) : Except Unit Json := do
  let cond1 ← pyContains ci key
  if cond1 then
    let sub ← pySubscript ci key
    let doc ← pyGetMethod sub "document"
    if pyTruthy doc then
      let doc2 ← pySubscript sub "document"
      match doc2 with
      | Json.str s => Except.ok (Json.str (digitsOnly s))
      | _ => Except.error ()
    else Except.ok Json.null
  else Except.ok Json.null

/-- The constructed deep link of main.py line 98. -/
def sentryUrl (e : Event) : String :=
  "https://musa-tecnologia.sentry.io/issues/" ++ e.groupID ++ "/events/" ++ e.eventID
    ++ "/?project=" ++ e.projectID

/-- Per-event processing of main.py lines 76-99: collect info, the
two-format timestamp parse, then the flat record; an error anywhere
(unparseable dateCreated, or collect-info lookups on a non-dictionary
value) propagates to the page-level except handlers. -/
def processEvent (e : Event) : Except Unit Record := do
  let collect_info := get_collect_info e.entries
  let created_at ←
    match parse_created_at e.dateCreated with
    | some t => Except.ok t
    | none => Except.error ()
  let collect_id ← pyGetMethod collect_info "id"
  let material ← pyGetMethod collect_info "material"
  let packaging ← pyGetMethod collect_info "packaging"
  let hauler ← cnpjOf collect_info "hauler"
  let receiver ← cnpjOf collect_info "receiver"
  Except.ok
    [("issue_id", Json.str e.groupID),
     ("event_id", Json.str e.eventID),
     ("project_id", Json.str e.projectID),
     ("event_type", Json.str e.type),
     ("title", Json.str e.title),
     ("message", Json.str e.message),
     ("platform", Json.str e.platform),
     ("culprit", Json.str e.culprit),
     ("created_at", Json.str created_at),
     ("collect_id", collect_id),
     ("kind_of_material", material),
     ("type_of_packaging", packaging),
     ("hauler_cnpj", hauler),
     ("receiver_cnpj", receiver),
     ("sentry_url", Json.str (sentryUrl e))]

/-- Result of one page request: a raised exception, or the decoded
body with the optional Link response header. -/
inductive PageResult where
  | error : PageResult
  | ok (body : List Event) (linkHeader : Option String) : PageResult

/-- The for loop of main.py lines 75-99 over one page body: records
appended before a failing event stay appended (the shared events list
is mutated in place), the Bool flags whether an event raised. -/
def processEvents : List Event → List Record × Bool
  | [] => ([], false)
  | e :: es =>
    match processEvent e with
    | Except.error _ => ([], true)
    | Except.ok r =>
      let pr := processEvents es
      (r :: pr.1, pr.2)

/-- The mutable state of the while loop: the pagination cursor url and
the accumulated events list. -/
structure FetchState where
  url : Option String
  events : List Record
deriving DecidableEq

/-- The loop condition of main.py line 70: url and len(events) < 1000.
The cursor is truthy when it is a non-empty string: both the None set
on line 102 and a hypothetical empty capture are falsy in Python. -/
def loopGuard (s : FetchState) : Bool :=
  (match s.url with
   | none => false
   | some u => u ≠ "") && decide (s.events.length < 1000)

/-- One iteration of the while loop body (main.py lines 71-116).  On a
raised fetch the except handlers only print, leaving url and events
unchanged.  On a page whose processing raises mid-page, the records
appended so far stay and url is not reassigned (line 102 is skipped).
On full success url becomes the gated rel-next target. -/
def step (world : String → PageResult) (s : FetchState) : FetchState :=
  match s.url with
  | none => s
  | some u =>
    match world u with
    | PageResult.error => s
    | PageResult.ok body link =>
      let pr := processEvents body
      { url := if pr.2 then some u else computeNext link,
        events := s.events ++ pr.1 }

/-- The while loop run for at most a given number of iterations; the
Python loop has no such bound, so non-termination shows up as the guard
still holding after any chosen number of iterations. -/
def runLoop (world : String → PageResult) : Nat → FetchState → FetchState
  | 0, s => s
  | n + 1, s => if loopGuard s then runLoop world n (step world s) else s

/-- As runLoop, also returning the list of URLs requested: each guarded
iteration issues exactly one GET to the current url. -/
def runTrace (world : String → PageResult) : Nat → FetchState → List String × FetchState
  | 0, s => ([], s)
  | n + 1, s =>
    if loopGuard s then
      let pr := runTrace world n (step world s)
      ((s.url.getD "") :: pr.1, pr.2)
    else ([], s)

/-- The environment-sourced configuration (main.py lines 17-20). -/
structure Config where
  org : String
  slug : String
  bucket : String

/-- The initial events-listing URL of main.py line 62. -/
def initialUrl (cfg : Config) : String :=
  "https://sentry.io/api/0/projects/" ++ cfg.org ++ "/" ++ cfg.slug ++ "/events/?full=true"

/-- get_all_events (main.py lines 61-118) run with the given iteration
bound: the accumulated events once the loop exits. -/
def get_all_events (cfg : Config) (world : String → PageResult) (fuel : Nat) : List Record :=
  (runLoop world fuel { url := some (initialUrl cfg), events := [] }).events

/-! ## CSV serializer (transform_data_to_csv, main.py lines 121-137)

csv.DictWriter with delimiter ; and extrasaction=ignore: each row maps
the fixed fieldnames through the row dictionary with restval None for
missing keys; the writer renders None as the empty field, strings as
themselves and any other value through str(), quoting a field only when
it contains the delimiter, the quote character or a line break, and
terminates rows with CRLF.
-/

/-- The fixed column list of main.py lines 122-126. -/
def csv_headers : List String :=
  ["issue_id", "event_id", "project_id", "event_type", "title", "message",
   "platform", "culprit", "created_at", "collect_id", "kind_of_material",
   "type_of_packaging", "hauler_cnpj", "receiver_cnpj", "sentry_url"]

/-- One character of the Python repr of a string: backslash escapes for
the backslash, the chosen quote character, and the common control
characters. -/
def reprCharEsc (q : Char) (c : Char) : List Char :=
  if c = '\\' then ['\\', '\\']
  else if c = q then ['\\', q]
  else if c = '\n' then ['\\', 'n']
  else if c = '\r' then ['\\', 'r']
  else if c = '\t' then ['\\', 't']
  else [c]

/-- Python repr of a string: single-quoted, switching to double quotes
when the text contains a single quote but no double quote. -/
def pyReprStr (s : String) : String :=
  let cs := s.toList
  let q := if cs.contains sq ∧ ¬ cs.contains '"' then '"' else sq
  String.mk (q :: (cs.map (reprCharEsc q)).flatten ++ [q])

mutual

/-- Python repr of a JSON-decoded value, as used for elements of
containers passed through str(). -/
def pyRepr : Json → String
  | Json.null => "None"
  | Json.bool true => "True"
  | Json.bool false => "False"
  | Json.num n => toString n
  | Json.str s => pyReprStr s
  | Json.arr elems => "[" ++ pyReprSeq elems ++ "]"
  | Json.obj fields => "\x7b" ++ pyReprPairs fields ++ "\x7d"

/-- Comma-separated reprs of list elements. -/
def pyReprSeq : List Json → String
  | [] => ""
  | [v] => pyRepr v
  | v :: rest => pyRepr v ++ ", " ++ pyReprSeq rest

/-- Comma-separated key: value reprs of dictionary items. -/
def pyReprPairs : List (String × Json) → String
  | [] => ""
  | [p] => pyReprStr p.1 ++ ": " ++ pyRepr p.2
  | p :: rest => pyReprStr p.1 ++ ": " ++ pyRepr p.2 ++ ", " ++ pyReprPairs rest

end

/-- The csv writer conversion of one cell: None becomes the empty
field, a string is written as itself, any other value through str(). -/
def renderCell : Json → String
  | Json.null => ""
  | Json.str s => s
  | Json.bool true => "True"
  | Json.bool false => "False"
  | Json.num n => toString n
  | Json.arr elems => "[" ++ pyReprSeq elems ++ "]"
  | Json.obj fields => "\x7b" ++ pyReprPairs fields ++ "\x7d"

/-- QUOTE_MINIMAL test: the field contains the delimiter, the quote
character or a line break. -/
def needsQuote (s : String) : Bool :=
  s.toList.any (fun c => c = ';' || c = '"' || c = '\n' || c = '\r')

/-- Quoting of one field: wrap in double quotes, doubling embedded
double quotes. -/
def csvEscape (s : String) : String :=
  String.mk ('"' :: (s.toList.map (fun c => if c = '"' then ['"', '"'] else [c])).flatten
    ++ ['"'])

/-- One rendered CSV field under QUOTE_MINIMAL. -/
def renderField (v : Json) : String :=
  let s := renderCell v
  if needsQuote s then csvEscape s else s

/-- Semicolon join of the rendered fields of one row. -/
def joinSemi : List String → String
  | [] => ""
  | [s] => s
  | s :: rest => s ++ ";" ++ joinSemi rest

/-- One written CSV row with the CRLF terminator. -/
def writerow (cells : List Json) : String :=
  joinSemi (cells.map renderField) ++ "\r\n"

/-- DictWriter row projection with extrasaction=ignore and restval
None: the fieldnames looked up in the row dictionary, missing keys
becoming None, keys outside the fieldnames never read. -/
def dictToRow (r : Record) : List Json :=
  csv_headers.map (fun h => (r.lookup h).getD Json.null)

/-- transform_data_to_csv (main.py lines 121-137): the header row then
one row per record in input order. -/
def transform_data_to_csv (data : List Record) : String :=
  writerow (csv_headers.map Json.str) ++ String.join (data.map (fun r => writerow (dictToRow r)))

/-! ## Entry point (lambda_handler, main.py lines 140-156) -/

/-- One s3_client.put_object call. -/
structure S3Write where
  bucket : String
  key : String
  body : String
deriving DecidableEq

/-- lambda_handler (main.py lines 140-156): fetch, then, only when the
events list is non-empty, serialize once and write the dated snapshot
object and the latest object with the same CSV text; always return the
(200, Sucesso) status pair. -/
def lambda_handler (cfg : Config) (world : String → PageResult) (fuel : Nat)
    (nowStr : String) : List S3Write × (Nat × String) :=
  let events := get_all_events cfg world fuel
  if events.length ≠ 0 then
    let csv := transform_data_to_csv events
    ([{ bucket := cfg.bucket, key := cfg.slug ++ "_backup/events_" ++ nowStr ++ ".csv",
        body := csv },
      { bucket := cfg.bucket, key := cfg.slug ++ "/events.csv", body := csv }],
     (200, "Sucesso"))
  else ([], (200, "Sucesso"))

/-! ## Shared fixtures and loop lemmas -/

/-- Entries holding a single frame whose vars bind body to the given
value. -/
def tBody (b : Json) : List Entry :=
  [Entry.mk (some (EntryData.mk (some [Thread.mk (some (some (Stacktrace.mk
    (some [Frame.mk (some [("body", b)])]))))])))]

/-- A well-formed sample event whose collect info carries an id and a
hauler document. -/
def tEvent : Event :=
  { groupID := "g1", eventID := "e1", projectID := "p1", type := "error",
    title := "t", message := "m", platform := "python", culprit := "c",
    dateCreated := "2024-01-02T03:04:05Z",
    entries := tBody (Json.obj [("id", Json.str "77"),
      ("hauler", Json.obj [("document", Json.str "12.345.678/0001-99")])]) }

/-- A world on which every request raises. -/
def errWorld : String → PageResult := fun _ => PageResult.error

/-- An event whose dateCreated matches neither accepted format. -/
def badDateEvent : Event := { tEvent with dateCreated := "01/02/2024 03:04" }

/-- A world serving a single page holding only the bad-date event. -/
def badDateWorld : String → PageResult := fun _ => PageResult.ok [badDateEvent] none

/-- A world on which every request succeeds with an empty page and no
next link. -/
def emptyWorld : String → PageResult := fun _ => PageResult.ok [] none

/-- A Link header whose rel-next entry points back at the URL u and
whose results marker allows following it. -/
def cycleHdr : String := "<u>; rel=\"next\"; results=\"true\""

/-- A world on which every request succeeds with an empty page and a
gated rel-next link back to the URL u. -/
def cycleWorld : String → PageResult := fun _ => PageResult.ok [] (some cycleHdr)

/-- A sample configuration. -/
def tCfg : Config := { org := "o", slug := "s", bucket := "b" }

/-- A world serving one single-event page at the initial URL with no
next link. -/
def oneShotWorld : String → PageResult := fun u =>
  if u = initialUrl tCfg then PageResult.ok [tEvent] none else PageResult.error

/-- A world on which every request succeeds with the one-event page and
a gated rel-next link, so that only the 1000-event cap stops the loop. -/
def oneEvWorld : String → PageResult := fun _ => PageResult.ok [tEvent] (some cycleHdr)

theorem runLoop_fixpoint (world : String → PageResult) (s : FetchState)
    (hstep : step world s = s) : ∀ n, runLoop world n s = s := by
  intro n
  induction n with
  | zero => rfl
  | succ k ih =>
    rw [runLoop]
    by_cases hg : loopGuard s
    · rw [if_pos hg, hstep, ih]
    · rw [if_neg hg]

theorem loopGuard_true_some (s : FetchState) (h : loopGuard s = true) :
    ∃ u, s.url = some u := by
  cases hu : s.url with
  | none => rw [loopGuard, hu] at h; simp at h
  | some u => exact ⟨u, rfl⟩

theorem loopGuard_none (evs : List Record) :
    loopGuard { url := none, events := evs } = false := rfl

theorem loopGuard_true_lt (s : FetchState) (h : loopGuard s = true) :
    s.events.length < 1000 := by
  rw [loopGuard] at h
  simp only [Bool.and_eq_true, decide_eq_true_eq] at h
  exact h.2

/-- On a fully successful page, the step appends the whole processed
page and moves the cursor to the gated next link. -/
theorem step_ok (world : String → PageResult) (s : FetchState) (u : String)
    (body : List Event) (link : Option String) (hu : s.url = some u)
    (hw : world u = PageResult.ok body link) (hn : (processEvents body).2 = false) :
    step world s
      = { url := computeNext link, events := s.events ++ (processEvents body).1 } := by
  obtain ⟨url, evs⟩ := s
  simp only at hu
  subst hu
  simp [step, hw, hn]

/-- Growth of the accumulated events: while the loop is still running,
every iteration of a world of fully successful non-empty pages has
added at least one record. -/
theorem runLoop_growth (world : String → PageResult)
    (hw : ∀ v, ∃ b l, world v = PageResult.ok b l ∧ (processEvents b).2 = false ∧
      (processEvents b).1 ≠ []) :
    ∀ (n : Nat) (s : FetchState), loopGuard (runLoop world n s) = true →
      s.events.length + n ≤ (runLoop world n s).events.length := by
  intro n
  induction n with
  | zero => intro s h; simp [runLoop]
  | succ k ih =>
    intro s h
    rw [runLoop] at h ⊢
    by_cases hg : loopGuard s
    · rw [if_pos hg] at h ⊢
      obtain ⟨u, hu⟩ := loopGuard_true_some s hg
      obtain ⟨b, l, hok, hnoerr, hne⟩ := hw u
      have hstep : s.events.length + 1 ≤ (step world s).events.length := by
        rw [step_ok world s u b l hu hok hnoerr]
        have hpos : 0 < (processEvents b).1.length := List.length_pos.mpr hne
        simp only [List.length_append]
        omega
      have := ih (step world s) h
      omega
    · rw [if_neg hg] at h
      exact absurd h hg

end SentryMon

namespace SentryMon

/-- Claim C1 counterexample: with a world on which the first page fetch
raises, the exception is caught but the pagination loop does not
terminate and does not return: the state is a fixpoint with the loop
condition still true, the same URL is requested again on every later
iteration (three requests in three iterations), and after 1000
iterations the loop is still running. -/
theorem C1_counterexample :
    step errWorld { url := some "u", events := [] } = { url := some "u", events := [] }
  ∧ (runTrace errWorld 3 { url := some "u", events := [] }).1 = ["u", "u", "u"]
  ∧ loopGuard (runLoop errWorld 1000 { url := some "u", events := [] }) = true := by
  refine ⟨rfl, rfl, ?_⟩
  rw [runLoop_fixpoint errWorld _ rfl]
  decide

/-- Claim C1 (amended): an exception raised during a page fetch is
caught (the loop state stays well defined and the accumulated events
are preserved), but the next URL is left unchanged, so the loop retries
the same page on its next iteration instead of terminating; the run
returns the accumulated events only once the cap is reached or a later
attempt at that page succeeds without a next link. -/
theorem C1_error_caught_retries :
    (∀ (world : String → PageResult) (s : FetchState) (u : String),
        s.url = some u → world u = PageResult.error →
        step world s = s ∧ (loopGuard s = true → (runTrace world 1 s).1 = [u]))
  ∧ (∀ (world : String → PageResult) (s : FetchState) (u : String) (body : List Event)
        (link : Option String),
        s.url = some u → world u = PageResult.ok body link → (processEvents body).2 = true →
        (step world s).url = some u
        ∧ (step world s).events = s.events ++ (processEvents body).1) := by
  constructor
  · intro world s u hu hw
    obtain ⟨url, evs⟩ := s
    simp only at hu
    subst hu
    constructor
    · simp [step, hw]
    · intro hg
      simp [runTrace, hg]
  · intro world s u body link hu hw hp
    obtain ⟨url, evs⟩ := s
    simp only at hu
    subst hu
    constructor
    · simp [step, hw, hp]
    · simp [step, hw]

/-- Claim C1 witness: the amended statement applied at concrete states:
a raised fetch leaves the state unchanged, and a page whose processing
raises mid-page keeps the same url (it will be retried) while the
records appended before the failure stay. -/
theorem C1_witness :
    step errWorld { url := some "w", events := [] } = { url := some "w", events := [] }
  ∧ (step badDateWorld { url := some "w", events := [] }).url = some "w" :=
  ⟨(C1_error_caught_retries.1 errWorld { url := some "w", events := [] } "w" rfl rfl).1,
   (C1_error_caught_retries.2 badDateWorld { url := some "w", events := [] } "w"
      [badDateEvent] none rfl rfl (by decide)).1⟩

/-- Claim C2 counterexample: a world of successful empty pages whose
gated rel-next link points back at the same URL keeps the loop running
indefinitely although every page fetch succeeds: the state is a
fixpoint with the guard still true, and after 1000 iterations the loop
is still fetching. -/
theorem C2_counterexample :
    cycleWorld "u" ≠ PageResult.error
  ∧ step cycleWorld { url := some "u", events := [] } = { url := some "u", events := [] }
  ∧ (runTrace cycleWorld 4 { url := some "u", events := [] }).1 = ["u", "u", "u", "u"]
  ∧ loopGuard (runLoop cycleWorld 1000 { url := some "u", events := [] }) = true := by
  refine ⟨fun h => PageResult.noConfusion h, rfl, rfl, ?_⟩
  rw [runLoop_fixpoint cycleWorld _ rfl]
  decide

/-- Claim C2 (amended): the loop condition stops the loop exactly when
there is no next URL or the accumulated count has reached 1000; once it
is false no further page is fetched; a fully successful page is always
appended whole, never truncated mid-page, so the list may exceed 1000;
and the loop terminates within 1000 iterations whenever every page
fetch succeeds with at least one processed event per page (successful
empty pages chained by next links can keep it running unboundedly). -/
theorem C2_cap_and_stop :
    (∀ s : FetchState, loopGuard s = false
      ↔ (s.url = none ∨ s.url = some "" ∨ 1000 ≤ s.events.length))
  ∧ (∀ (world : String → PageResult) (s : FetchState) (n : Nat), loopGuard s = false →
      runTrace world n s = ([], s))
  ∧ (∀ (world : String → PageResult) (s : FetchState) (u : String) (body : List Event)
      (link : Option String), s.url = some u → world u = PageResult.ok body link →
      (processEvents body).2 = false →
      (step world s).events = s.events ++ (processEvents body).1)
  ∧ (∀ world : String → PageResult,
      (∀ v, ∃ b l, world v = PageResult.ok b l ∧ (processEvents b).2 = false ∧
        (processEvents b).1 ≠ []) →
      ∀ u0 : Option String, loopGuard (runLoop world 1000 { url := u0, events := [] }) = false) := by
  refine ⟨?_, ?_, ?_, ?_⟩
  · intro s
    cases hu : s.url with
    | none => simp [loopGuard, hu]
    | some u =>
      simp [loopGuard, hu, Nat.not_lt, or_assoc]
      exact or_iff_not_imp_left.symm
  · intro world s n h
    cases n with
    | zero => rfl
    | succ k => simp [runTrace, h]
  · intro world s u body link hu hw hn
    rw [step_ok world s u body link hu hw hn]
  · intro world hw u0
    by_contra hg
    rw [Bool.not_eq_false] at hg
    have hlen := runLoop_growth world hw 1000 { url := u0, events := [] } hg
    have hlt := loopGuard_true_lt _ hg
    simp only [List.length_nil, Nat.zero_add] at hlen
    omega

/-- A world on which every request succeeds with a five-event page and
no next link. -/
def fiveEvWorld : String → PageResult := fun _ =>
  PageResult.ok (List.replicate 5 tEvent) none

/-- Claim C2 witness: the amended statement applied at concrete inputs:
a stopped state is never fetched again, a successful page is appended
whole, a five-event page taken at 999 accumulated events yields 1004
records (the cap never truncates mid-page), and the loop over a world
of gated one-event pages has stopped by iteration 1000. -/
theorem C2_witness :
    runTrace errWorld 7 { url := some "u", events := List.replicate 1000 [] } =
      ([], { url := some "u", events := List.replicate 1000 [] })
  ∧ (step oneEvWorld { url := some "x", events := [] }).events
      = [] ++ (processEvents [tEvent]).1
  ∧ (step fiveEvWorld { url := some "u", events := List.replicate 999 [] }).events.length
      = 1004
  ∧ loopGuard (runLoop oneEvWorld 1000 { url := some "start", events := [] }) = false := by
  refine ⟨?_, ?_, ?_, ?_⟩
  · exact C2_cap_and_stop.2.1 errWorld _ 7
      (by rw [loopGuard]; rw [List.length_replicate]; decide)
  · exact C2_cap_and_stop.2.2.1 oneEvWorld { url := some "x", events := [] } "x" [tEvent]
      (some cycleHdr) rfl rfl (by decide)
  · rw [C2_cap_and_stop.2.2.1 fiveEvWorld { url := some "u", events := List.replicate 999 [] }
      "u" (List.replicate 5 tEvent) none rfl rfl (by decide)]
    rw [List.length_append, List.length_replicate]
    decide
  · exact C2_cap_and_stop.2.2.2 oneEvWorld
      (fun v => ⟨[tEvent], some cycleHdr, rfl, by decide, by decide⟩) (some "start")

/-- Claim C3: the extractor scans entries, then each entry.data.values
thread, then each thread.stacktrace.frames frame in order (missing
data, missing values and null or missing stacktrace give no threads or
frames), returns the normalizer applied to the first body variable
found, short-circuiting all three loops, and returns an empty mapping
when no frame matches; it is total, so no error is possible. -/
theorem C3_extractor_first_match (entries : List Entry) :
    get_collect_info entries
      = match spec_first_body entries with
        | some v => clean_quoted_strings v
        | none => Json.obj [] := by
  rw [get_collect_info, scanEntries_eq]

/-- Claim C4: the next URL is the capture of a rel-next entry of the
Link header only when the results marker occurs in the same header
string; an absent header, no matching entry, or a missing marker gives
no next URL (claimNext states exactly this reading); the step function
installs that URL after a successful page, and a state without URL
fails the loop condition, stopping pagination. -/
theorem C4_next_link_gating :
    (∀ lh, computeNext lh = claimNext lh)
  ∧ computeNext none = none
  ∧ (∀ h, isSubstring resultsMarker h = false → computeNext (some h) = none)
  ∧ (∀ h, (∀ p ∈ pySplitCommaSpace h, linkCapture p = none) → computeNext (some h) = none)
  ∧ (∀ lh, (step (fun _ => PageResult.ok [] lh) { url := some "u", events := [] }).url
      = claimNext lh)
  ∧ (∀ evs, loopGuard { url := none, events := evs } = false) := by
  refine ⟨computeNext_eq_claimNext, rfl, ?_, ?_, ?_, ?_⟩
  · intro h hm
    rw [computeNext_eq_claimNext]
    simp [claimNext, hm]
  · intro h hcap
    rw [computeNext_eq_claimNext]
    have hnil : (pySplitCommaSpace h).filterMap linkCapture = [] :=
      List.filterMap_eq_nil_iff.mpr hcap
    simp [claimNext, hnil]
  · intro lh
    show computeNext lh = claimNext lh
    exact computeNext_eq_claimNext lh
  · intro evs
    rfl

/-- Claim C4 witness: the gating statement applied at concrete headers:
a valid rel-next entry without the results marker is not followed, and
a header without any rel-next entry gives no next URL. -/
theorem C4_witness :
    computeNext (some "<https://x.example/p2>; rel=\"next\"") = none
  ∧ computeNext (some "<https://x.example/p1>; rel=\"previous\", results=\"true\"") = none :=
  ⟨C4_next_link_gating.2.2.1 "<https://x.example/p2>; rel=\"next\"" (by decide),
   C4_next_link_gating.2.2.2.1 "<https://x.example/p1>; rel=\"previous\", results=\"true\""
     (by decide)⟩

/-- Claim C5 counterexample: a run whose fetching yields no events
performs no object-storage write at all (not two), while still
returning the 200 status, contradicting two writes on every
invocation. -/
theorem C5_counterexample :
    (lambda_handler tCfg emptyWorld 5 "NOW").1 = []
  ∧ (lambda_handler tCfg emptyWorld 5 "NOW").1.length ≠ 2
  ∧ (lambda_handler tCfg emptyWorld 5 "NOW").2 = (200, "Sucesso") := by
  refine ⟨rfl, by decide, rfl⟩

/-- Claim C5 (amended): every invocation returns the status pair
(200, Sucesso) with no other path; when fetching yields no events no
write is performed; when it yields at least one event exactly two
writes occur, the dated snapshot and the latest object, with identical
CSV body. -/
theorem C5_status_and_writes (cfg : Config) (world : String → PageResult) (fuel : Nat)
    (nowStr : String) :
    (lambda_handler cfg world fuel nowStr).2 = (200, "Sucesso")
  ∧ (get_all_events cfg world fuel = [] → (lambda_handler cfg world fuel nowStr).1 = [])
  ∧ (get_all_events cfg world fuel ≠ [] →
      (lambda_handler cfg world fuel nowStr).1 =
        [{ bucket := cfg.bucket, key := cfg.slug ++ "_backup/events_" ++ nowStr ++ ".csv",
           body := transform_data_to_csv (get_all_events cfg world fuel) },
         { bucket := cfg.bucket, key := cfg.slug ++ "/events.csv",
           body := transform_data_to_csv (get_all_events cfg world fuel) }]) := by
  by_cases h : get_all_events cfg world fuel = []
  · have hlen : (get_all_events cfg world fuel).length = 0 := by rw [h]; rfl
    refine ⟨?_, fun _ => ?_, fun hne => absurd h hne⟩ <;>
      simp [lambda_handler, hlen]
  · have hlen : (get_all_events cfg world fuel).length ≠ 0 := by
      intro hc
      exact h (List.length_eq_zero.mp hc)
    refine ⟨?_, fun he => absurd he h, fun _ => ?_⟩ <;>
      simp [lambda_handler, hlen]

/-- Claim C5 witness: the amended statement applied to a concrete
one-event world: the 200 status and the two identical-body writes. -/
theorem C5_witness :
    (lambda_handler tCfg oneShotWorld 5 "NOW").2 = (200, "Sucesso")
  ∧ (lambda_handler tCfg oneShotWorld 5 "NOW").1 =
      [{ bucket := tCfg.bucket, key := tCfg.slug ++ "_backup/events_" ++ "NOW" ++ ".csv",
         body := transform_data_to_csv (get_all_events tCfg oneShotWorld 5) },
       { bucket := tCfg.bucket, key := tCfg.slug ++ "/events.csv",
         body := transform_data_to_csv (get_all_events tCfg oneShotWorld 5) }] :=
  ⟨(C5_status_and_writes tCfg oneShotWorld 5 "NOW").1,
   (C5_status_and_writes tCfg oneShotWorld 5 "NOW").2.2 (by decide)⟩

/-- The Bool condition of main.py line 37 as the proposition of the
claim wording. -/
theorem startsEndsQuote_iff (cs : List Char) :
    startsEndsQuote cs = true
      ↔ 2 ≤ cs.length ∧ cs.head? = some sq ∧ cs.getLast? = some sq := by
  simp [startsEndsQuote, and_assoc]

/-- Claim C6: the normalizer maps dictionaries per value keeping keys,
maps sequences per element, removes exactly one leading and one
trailing single quote from a string that starts and ends with one and
has length at least two, and returns every other value unchanged; it
is a total function. -/
theorem C6_normalizer_shape :
    (∀ fields, clean_quoted_strings (Json.obj fields)
        = Json.obj (fields.map (fun p => (p.1, clean_quoted_strings p.2))))
  ∧ (∀ elems, clean_quoted_strings (Json.arr elems)
        = Json.arr (elems.map clean_quoted_strings))
  ∧ (∀ s, clean_quoted_strings (Json.str s)
        = Json.str (if 2 ≤ s.toList.length ∧ s.toList.head? = some sq ∧
              s.toList.getLast? = some sq
            then String.mk ((s.toList.drop 1).dropLast) else s))
  ∧ clean_quoted_strings Json.null = Json.null
  ∧ (∀ b, clean_quoted_strings (Json.bool b) = Json.bool b)
  ∧ (∀ n, clean_quoted_strings (Json.num n) = Json.num n) := by
  refine ⟨?_, ?_, ?_, rfl, fun b => rfl, fun n => rfl⟩
  · intro fields
    rw [clean_quoted_strings, cleanFields_eq_map]
  · intro elems
    rw [clean_quoted_strings, cleanElems_eq_map]
  · intro s
    rw [clean_quoted_strings]
    by_cases hc : 2 ≤ s.toList.length ∧ s.toList.head? = some sq ∧ s.toList.getLast? = some sq
    · rw [stripQuotes, sliceInner, (startsEndsQuote_iff s.toList).mpr hc, if_pos hc]
      rfl
    · have hb : startsEndsQuote s.toList = false := by
        cases hbb : startsEndsQuote s.toList
        · rfl
        · exact absurd ((startsEndsQuote_iff s.toList).mp hbb) hc
      rw [stripQuotes, hb, if_neg hc]
      rfl

/-- An event processed on a page whose dateCreated matches neither
format makes the whole event raise. -/
theorem processEvent_bad_date (e : Event) (hp : parse_created_at e.dateCreated = none) :
    processEvent e = Except.error () := by
  simp only [processEvent, hp]
  rfl

/-- Claim C7: dateCreated is parsed with the microsecond format first
and the basic format only as fallback; the emitted created_at is the
parsed timestamp rendered as zero-padded date, space, time, dot and six
microsecond digits; and an event matching neither format raises out of
the per-event code into the same per-page handler as a network error,
leaving the loop state exactly as a failed fetch does. -/
theorem C7_timestamp_parsing :
    (∀ s dt, strptimeFmtMicro s = some dt →
      parse_created_at s = some (padZeros 4 dt.year ++ "-" ++ padZeros 2 dt.month ++ "-"
        ++ padZeros 2 dt.day ++ " " ++ padZeros 2 dt.hour ++ ":" ++ padZeros 2 dt.minute
        ++ ":" ++ padZeros 2 dt.second ++ "." ++ padZeros 6 dt.micro))
  ∧ (∀ s dt, strptimeFmtMicro s = none → strptimeFmtBasic s = some dt →
      parse_created_at s = some (strftimeOut dt))
  ∧ (∀ s, strptimeFmtMicro s = none → strptimeFmtBasic s = none →
      parse_created_at s = none)
  ∧ (∀ (world : String → PageResult) (evs : List Record) (u : String) (e : Event)
      (link : Option String), world u = PageResult.ok [e] link →
      parse_created_at e.dateCreated = none →
      step world { url := some u, events := evs } = { url := some u, events := evs }) := by
  refine ⟨?_, ?_, ?_, ?_⟩
  · intro s dt h
    simp only [parse_created_at, h]
    rfl
  · intro s dt h1 h2
    simp only [parse_created_at, h1, h2]
  · intro s h1 h2
    simp only [parse_created_at, h1, h2]
  · intro world evs u e link hw hp
    have hpe : processEvents [e] = ([], true) := by
      simp [processEvents, processEvent_bad_date e hp]
    simp [step, hw, hpe]

/-- Claim C7 witness: the parsing statement applied at concrete
timestamps of both formats and at a concrete bad-date page. -/
theorem C7_witness :
    parse_created_at "2023-05-06T07:08:09.5Z" = some "2023-05-06 07:08:09.500000"
  ∧ parse_created_at "2024-01-02T03:04:05Z" = some "2024-01-02 03:04:05.000000"
  ∧ parse_created_at "01/02/2024 03:04" = none
  ∧ step badDateWorld { url := some "u", events := [] } = { url := some "u", events := [] } :=
  ⟨(C7_timestamp_parsing.1 "2023-05-06T07:08:09.5Z" ⟨2023, 5, 6, 7, 8, 9, 500000⟩ rfl).trans rfl,
   (C7_timestamp_parsing.2.1 "2024-01-02T03:04:05Z" ⟨2024, 1, 2, 3, 4, 5, 0⟩ rfl rfl).trans rfl,
   C7_timestamp_parsing.2.2.1 "01/02/2024 03:04" rfl rfl,
   C7_timestamp_parsing.2.2.2 badDateWorld [] "u" badDateEvent none rfl rfl⟩

/-- Bind on Except consumes a success value. -/
theorem exceptBind_ok {A B : Type} (a : A) (f : A → Except Unit B) :
    (Except.ok a : Except Unit A) >>= f = f a := rfl

/-- Bind on Except propagates a raised error. -/
theorem exceptBind_err {A B : Type} (f : A → Except Unit B) :
    (Except.error () : Except Unit A) >>= f = Except.error () := rfl

/-- Dictionary key membership (the any of pyContains) agrees with the
lookup the subscript performs. -/
theorem lookup_none_any_false (fs : List (String × Json)) (key : String) :
    fs.lookup key = none ↔ fs.any (fun p => p.1 = key) = false := by
  induction fs with
  | nil => simp
  | cons p rest ih =>
    obtain ⟨a, b⟩ := p
    by_cases h : key = a
    · subst h
      simp [List.lookup_cons]
    · simp [List.lookup_cons, beq_false_of_ne h, Ne.symm h, ih]

theorem lookup_some_any_true (fs : List (String × Json)) (key : String) (v : Json)
    (h : fs.lookup key = some v) : fs.any (fun p => p.1 = key) = true := by
  cases ha : fs.any (fun p => p.1 = key) with
  | true => rfl
  | false => rw [(lookup_none_any_false fs key).mpr ha] at h; exact Option.noConfusion h

/-- An event whose collect info carries a hauler object whose document
is present but the empty string. -/
def emptyDocEvent : Event :=
  { tEvent with entries := tBody (Json.obj [("hauler", Json.obj [("document", Json.str "")])]) }

/-- Claim C8 counterexample: with hauler.document present but equal to
the empty string, the flat record carries hauler_cnpj = None although
the digits-only projection of the present document field is the empty
string, not null: presence alone does not decide the branch, Python
truthiness does. -/
theorem C8_counterexample :
    cnpjOf (Json.obj [("hauler", Json.obj [("document", Json.str "")])]) "hauler"
      = Except.ok Json.null
  ∧ (∃ r, processEvent emptyDocEvent = Except.ok r
      ∧ r.lookup "hauler_cnpj" = some Json.null)
  ∧ Json.null ≠ Json.str (digitsOnly "") := by
  refine ⟨rfl, ⟨_, rfl, rfl⟩, by decide⟩

/-- Claim C8 (amended): hauler_cnpj is the digits-only projection of
Collect Info.hauler.document when that field is present and truthy (a
non-empty string), and null when the hauler key is absent, the document
key is absent, or the document value is the empty string; receiver_cnpj
follows the same rule via the same expression applied to the receiver
key. -/
theorem C8_cnpj_truthiness :
    (∀ (fs sub : List (String × Json)) (key s : String),
        fs.lookup key = some (Json.obj sub) → sub.lookup "document" = some (Json.str s) →
        s ≠ "" → cnpjOf (Json.obj fs) key = Except.ok (Json.str (digitsOnly s)))
  ∧ (∀ (fs : List (String × Json)) (key : String), fs.lookup key = none →
        cnpjOf (Json.obj fs) key = Except.ok Json.null)
  ∧ (∀ (fs sub : List (String × Json)) (key : String), fs.lookup key = some (Json.obj sub) →
        sub.lookup "document" = none → cnpjOf (Json.obj fs) key = Except.ok Json.null)
  ∧ (∀ (fs sub : List (String × Json)) (key : String), fs.lookup key = some (Json.obj sub) →
        sub.lookup "document" = some (Json.str "") →
        cnpjOf (Json.obj fs) key = Except.ok Json.null) := by
  refine ⟨?_, ?_, ?_, ?_⟩
  · intro fs sub key s hlk hdoc hs
    have hany := lookup_some_any_true fs key _ hlk
    have htr : pyTruthy (Json.str s) = true := by simp [pyTruthy, hs]
    simp [cnpjOf, pyContains, hany, pySubscript, hlk, pyGetMethod, hdoc, htr,
      exceptBind_ok, exceptBind_err]
  · intro fs key hlk
    have hany := (lookup_none_any_false fs key).mp hlk
    simp [cnpjOf, pyContains, hany, exceptBind_ok, exceptBind_err]
  · intro fs sub key hlk hdoc
    have hany := lookup_some_any_true fs key _ hlk
    simp [cnpjOf, pyContains, hany, pySubscript, hlk, pyGetMethod, hdoc, pyTruthy,
      exceptBind_ok, exceptBind_err]
  · intro fs sub key hlk hdoc
    have hany := lookup_some_any_true fs key _ hlk
    simp [cnpjOf, pyContains, hany, pySubscript, hlk, pyGetMethod, hdoc, pyTruthy,
      exceptBind_ok, exceptBind_err]

/-- Claim C8 witness: the amended statement applied at the concrete
document of the claim and at an absent hauler key. -/
theorem C8_witness :
    cnpjOf (Json.obj [("hauler", Json.obj [("document", Json.str "12.345.678/0001-99")])])
        "hauler" = Except.ok (Json.str (digitsOnly "12.345.678/0001-99"))
  ∧ digitsOnly "12.345.678/0001-99" = "12345678000199"
  ∧ cnpjOf (Json.obj []) "hauler" = Except.ok Json.null :=
  ⟨C8_cnpj_truthiness.1 [("hauler", Json.obj [("document", Json.str "12.345.678/0001-99")])]
      [("document", Json.str "12.345.678/0001-99")] "hauler" "12.345.678/0001-99" rfl rfl
      (by decide),
   by decide,
   C8_cnpj_truthiness.2.1 [] "hauler" rfl⟩

/-- Claim C9: the serializer emits the fixed fifteen-name header line,
then one semicolon-joined CRLF-terminated line per record in input
order, each field looked up by column name (missing keys rendering as
the empty field through the None default, record keys outside the
column list never read and hence ignored). -/
theorem C9_csv_serializer :
    transform_data_to_csv []
      = "issue_id;event_id;project_id;event_type;title;message;platform;culprit;created_at;collect_id;kind_of_material;type_of_packaging;hauler_cnpj;receiver_cnpj;sentry_url\r\n"
  ∧ (∀ data, transform_data_to_csv data
      = writerow (csv_headers.map Json.str)
        ++ String.join (data.map (fun r => writerow (dictToRow r))))
  ∧ (∀ r : Record, writerow (dictToRow r)
      = joinSemi (csv_headers.map (fun h => renderField ((r.lookup h).getD Json.null)))
        ++ "\r\n")
  ∧ (∀ (r : Record) (k : String) (v : Json), k ∉ csv_headers →
      dictToRow ((k, v) :: r) = dictToRow r)
  ∧ (∀ r : Record, r.lookup "collect_id" = none → (dictToRow r)[9]? = some Json.null)
  ∧ renderField Json.null = "" := by
  refine ⟨rfl, fun data => rfl, ?_, ?_, ?_, rfl⟩
  · intro r
    simp [writerow, dictToRow, List.map_map, Function.comp_def]
  · intro r k v hk
    rw [dictToRow, dictToRow]
    apply List.map_congr_left
    intro h hmem
    have hne : h ≠ k := fun he => hk (he ▸ hmem)
    rw [List.lookup_cons, beq_false_of_ne hne]
  · intro r hnone
    simp [dictToRow, csv_headers, hnone]

/-- A flat record binding only two of the column names. -/
def sampleRec : Record := [("issue_id", Json.str "1"), ("collect_id", Json.str "c")]

/-- A flat record without a collect_id binding. -/
def noCollectRec : Record := [("issue_id", Json.str "1")]

/-- Claim C9 witness: the serializer statement applied at concrete
records: an extra field changes no row, and a missing collect_id
renders as the empty field at its column position. -/
theorem C9_witness :
    dictToRow (("extra_field", Json.num 7) :: sampleRec) = dictToRow sampleRec
  ∧ (dictToRow noCollectRec)[9]? = some Json.null :=
  ⟨C9_csv_serializer.2.2.2.1 sampleRec "extra_field" (Json.num 7) (by decide),
   C9_csv_serializer.2.2.2.2.1 noCollectRec rfl⟩

/-- Claim C10: the extractor returns the normalizer applied to the
first body value whatever its JSON type, with no guarantee of a
mapping; the .get method the fetcher then calls on the collect info is
undefined (an AttributeError) on string and list receivers, so an event
whose collect info is a string makes the per-event record construction
raise. -/
theorem C10_nonmapping_collect_info :
    (∀ (entries : List Entry) (v : Json), scanEntries entries = some v →
      get_collect_info entries = clean_quoted_strings v)
  ∧ (∀ s k, pyGetMethod (Json.str s) k = Except.error ())
  ∧ (∀ (es : List Json) (k : String), pyGetMethod (Json.arr es) k = Except.error ())
  ∧ (∀ (e : Event) (s : String), get_collect_info e.entries = Json.str s →
      (∃ t, parse_created_at e.dateCreated = some t) → processEvent e = Except.error ()) := by
  refine ⟨?_, fun s k => rfl, fun es k => rfl, ?_⟩
  · intro entries v h
    rw [get_collect_info, h]
  · intro e s hci ht
    obtain ⟨t, ht⟩ := ht
    simp only [processEvent, hci, ht]
    rfl

/-- An event whose first body value is a quoted plain string, so its
collect info is a string, not a mapping. -/
def strBodyEvent : Event :=
  { tEvent with entries := tBody (Json.str (String.mk [sq, 'x', sq])) }

/-- Claim C10 witness: the statement applied at a concrete event whose
body value is a string. -/
theorem C10_witness :
    get_collect_info strBodyEvent.entries
        = clean_quoted_strings (Json.str (String.mk [sq, 'x', sq]))
  ∧ pyGetMethod (Json.str "x") "id" = Except.error ()
  ∧ processEvent strBodyEvent = Except.error () :=
  ⟨C10_nonmapping_collect_info.1 strBodyEvent.entries (Json.str (String.mk [sq, 'x', sq])) rfl,
   C10_nonmapping_collect_info.2.1 "x" "id",
   C10_nonmapping_collect_info.2.2.2 strBodyEvent "x" rfl
     ⟨"2024-01-02 03:04:05.000000", rfl⟩⟩

end SentryMon
